import Mathlib

set_option linter.unnecessarySimpa false

/-!
Verification development for a multi-tenant social-posting service
(`src/app.py`, `src/scripts/poster.py`).

The development shallowly embeds the scheduling core (CSV day-selector
parsing, timezone resolution, APScheduler `CronTrigger` construction,
the job registry manipulated by `schedule_user_job` / `load_all_jobs`,
and the `/set-schedule-advanced` route) and the publish pipeline
(`post_for_user`, `post_facebook`, `post_instagram`, and the script
variant `poster.post_instagram`).

Modelling conventions:
- Python ints are `Int`; machine overflow is irrelevant here.
- Python exceptions are explicit: a function that can raise returns its
  result together with an `Option String` (the propagating exception),
  or an `Except String` value.
- HTTP calls made with `requests` are modelled by an oracle value
  (`HttpResult`) supplied as input: either the library raised (transport
  error) or a response with a status code and a body arrived.
- Side effects that matter to the claims (which network calls were
  attempted, what was printed) are recorded in an event trace.
-/

/-! ## Python primitives -/

/-- Python `x or default` for an optional string column: `None` and `""`
are falsy and replaced by the default. -/
def pyOrStr (x : Option String) (d : String) : String :=
  match x with
  | none => d
  | some s => if s = "" then d else s

/-- Python `x or default` for an optional integer column: `None` and `0`
are falsy and replaced by the default. -/
def pyOrInt (x : Option Int) (d : Int) : Int :=
  match x with
  | none => d
  | some v => if v = 0 then d else v

/-- Interpret a list of ASCII digit characters as a natural number. -/
def digitsToNat (l : List Char) : Nat :=
  l.foldl (fun n c => 10 * n + (c.toNat - 48)) 0

/-- No two consecutive underscore characters. -/
def noDoubleUnderscore : List Char → Bool
  | [] => true
  | [_] => true
  | a :: b :: rest => !(a == '_' && b == '_') && noDoubleUnderscore (b :: rest)

/-- Python `str.split(",")`: split at every comma, keeping empty
pieces (`"".split(",") == [""]`, `",".split(",") == ["", ""]`).
Implemented by structural recursion over the character list so that it
evaluates inside the kernel. -/
def splitOnCommaChars : List Char → List (List Char)
  | [] => [[]]
  | c :: rest =>
    match splitOnCommaChars rest with
    | [] => [[]]
    | cur :: groups =>
      if c = ',' then [] :: cur :: groups else (c :: cur) :: groups

def splitOnComma (s : String) : List String :=
  (splitOnCommaChars s.toList).map (fun l => String.mk l)

/-- Python `str.strip()`: drop leading and trailing whitespace. -/
def pyStrip (s : String) : String :=
  String.mk
    ((((s.toList.dropWhile Char.isWhitespace).reverse.dropWhile
        Char.isWhitespace).reverse))

/-- Python `int(s)` on an already-stripped string: an optional sign
followed by a nonempty run of decimal digits, in which single
underscores may appear between digits (Python 3 digit separators).
Returns `none` where Python raises `ValueError`. Non-ASCII decimal
digits, accepted by CPython, are not modelled; no claim depends on
them. -/
def parsePyInt (s : String) : Option Int :=
  let cs0 := s.toList
  let neg := cs0.head? == some '-'
  let cs := if cs0.head? == some '-' || cs0.head? == some '+' then cs0.tail else cs0
  if cs.isEmpty then none
  else if !(cs.all fun c => c.isDigit || c == '_') then none
  else if cs.head? == some '_' || cs.getLast? == some '_' then none
  else if !(noDoubleUnderscore cs) then none
  else
    let ds := cs.filter (fun c => c != '_')
    some (if neg then -(digitsToNat ds : Int) else (digitsToNat ds : Int))

/-- The list comprehension `[int(x.strip()) for x in ... if x.strip() != ""]`
over the already-stripped nonempty pieces: the first piece that `int`
rejects aborts the whole comprehension (Python raises `ValueError`
there). -/
def intsOfPieces : List String → Option (List Int)
  | [] => some []
  | x :: xs =>
    match parsePyInt x, intsOfPieces xs with
    | some v, some vs => some (v :: vs)
    | _, _ => none

/-- `app._parse_csv_ints`: split on commas, strip each piece, drop empty
pieces, and convert each remaining piece with `int`. The whole list
comprehension sits inside `try/except`, so a single unparseable piece
makes the function return `[]`. `None` and `""` are handled by the
leading falsiness check. -/
def parse_csv_ints (csv_str : Option String) : List Int :=
  match csv_str with
  | none => []
  | some s =>
    if s = "" then []
    else
      let pieces := ((splitOnComma s).map pyStrip).filter (fun p => p ≠ "")
      match intsOfPieces pieces with
      | some xs => xs
      | none => []

/-! ## Timezone resolution

`zoneinfo.ZoneInfo(tz)` resolves an IANA zone id against the system
timezone database and raises for unknown keys. The database is external
data; it is modelled by a representative finite table of resolvable
keys. Every claim only distinguishes resolvable from unresolvable
keys. -/

def KNOWN_TIMEZONES : List String :=
  ["UTC", "Asia/Kolkata", "America/New_York", "Europe/London",
   "Asia/Tokyo", "Australia/Sydney", "America/Los_Angeles"]

/-- `zoneinfo.ZoneInfo` as a partial lookup: `some` iff the key is in
the (modelled) IANA database. -/
def resolveTZ (tz : String) : Option String :=
  if KNOWN_TIMEZONES.contains tz then some tz else none

/-- The timezone actually used by `schedule_user_job`: the resolved zone
or the `UTC` fallback installed by its `try/except`. -/
def tzOrUTC (tz : String) : String :=
  match resolveTZ tz with
  | some z => z
  | none => "UTC"

/-! ## CronTrigger -/

/-- APScheduler `CronTrigger`, restricted to the fields this program
passes. The comma-joined `day_of_week` and `day` strings that the
program builds are kept as token lists (the join is inverted by
APScheduler when it parses the field, and the tokens contain no
commas). -/
structure CronTrigger where
  dayOfWeek : Option (List String)
  day : Option (List Int)
  hour : Int
  minute : Int
  timezone : String
deriving DecidableEq, Repr

def VALID_DOW_NAMES : List String :=
  ["mon", "tue", "wed", "thu", "fri", "sat", "sun"]

/-- `CronTrigger(...)` construction: APScheduler validates each field
against its range (`hour` 0-23, `minute` 0-59, `day` 1-31, `day_of_week`
a known name) and raises `ValueError` on violation. -/
def mkCronTrigger (dow : Option (List String)) (day : Option (List Int))
    (hour minute : Int) (tzinfo : String) : Except String CronTrigger :=
  if hour < 0 || 23 < hour then .error "ValueError: hour out of range"
  else if minute < 0 || 59 < minute then .error "ValueError: minute out of range"
  else if (day.getD []).any (fun d => d < 1 || 31 < d) then .error "ValueError: day out of range"
  else if (dow.getD []).any (fun s => !(VALID_DOW_NAMES.contains s)) then
    .error "ValueError: invalid day_of_week"
  else .ok ⟨dow, day, hour, minute, tzinfo⟩

/-- `app.DOW_MAP.get(d, "mon")`: weekday number to cron name, with
`"mon"` for any key outside 0-6. -/
def DOW_MAP (d : Int) : String :=
  if d = 0 then "mon"
  else if d = 1 then "tue"
  else if d = 2 then "wed"
  else if d = 3 then "thu"
  else if d = 4 then "fri"
  else if d = 5 then "sat"
  else if d = 6 then "sun"
  else "mon"

/-- The trigger-selection block of `app.schedule_user_job` (the
`if mode == ...` chain), after the timezone has been resolved. Unknown
modes fall into the final `else`, which builds the same trigger as
`daily`. -/
def computeTrigger (mode : String) (tzinfo : String) (hour minute : Int)
    (weekdays_csv monthdays_csv : Option String) : Except String CronTrigger :=
  if mode = "daily" then
    mkCronTrigger none none hour minute tzinfo
  else if mode = "weekly" then
    let days0 := parse_csv_ints weekdays_csv
    let days := if days0.isEmpty then [0] else days0
    mkCronTrigger (some (days.map DOW_MAP)) none hour minute tzinfo
  else if mode = "monthly" then
    let mdays0 := parse_csv_ints monthdays_csv
    let mdays := if mdays0.isEmpty then [1] else mdays0
    mkCronTrigger none (some mdays) hour minute tzinfo
  else
    mkCronTrigger none none hour minute tzinfo

/-! ## Job registry -/

/-- A live APScheduler job: the trigger rule and the user whose
`post_for_user` the job closure invokes. -/
structure Job where
  trigger : CronTrigger
  runUser : Int
deriving DecidableEq, Repr

/-- The scheduler job table, keyed by job id. -/
abbrev Registry := List (String × Job)

/-- `f"post_user_{user_id}"`. -/
def jobId (user_id : Int) : String :=
  "post_user_" ++ toString user_id

/-- Number of live jobs stored under a given id. -/
def countKey (reg : Registry) (k : String) : Nat :=
  (reg.filter (fun p => p.1 == k)).length

/-- The job stored under a given id, if any. -/
def getJob (reg : Registry) (k : String) : Option Job :=
  (reg.find? (fun p => p.1 == k)).map (fun p => p.2)

/-- `SCHED.remove_job(job_id)` wrapped in `try/except pass`: drop the
entry if present, no error if absent. -/
def removeJob (reg : Registry) (k : String) : Registry :=
  reg.filter (fun p => !(p.1 == k))

/-- `SCHED.add_job(..., id=job_id)`: raises `ConflictingIdError` when a
job with the id already exists, otherwise stores the job. -/
def addJob (reg : Registry) (k : String) (j : Job) : Except String Registry :=
  if reg.any (fun p => p.1 == k) then .error "ConflictingIdError"
  else .ok (reg ++ [(k, j)])

/-- `app.schedule_user_job`: remove any existing job for the user,
resolve the timezone with a `UTC` fallback, build the trigger, and add
the new job. Returns the registry together with the propagating
exception if trigger construction raised (in which case the old job has
already been removed and no new job was added). -/
def schedule_user_job (reg : Registry) (user_id : Int) (mode tz : String)
    (hour minute : Int) (weekdays_csv monthdays_csv : Option String) :
    Registry × Option String :=
  let reg1 := removeJob reg (jobId user_id)
  match computeTrigger mode (tzOrUTC tz) hour minute weekdays_csv monthdays_csv with
  | .error e => (reg1, some e)
  | .ok trig =>
    match addJob reg1 (jobId user_id) ⟨trig, user_id⟩ with
    | .error e => (reg1, some e)
    | .ok reg2 => (reg2, none)

/-- One row of the `schedules` table, as read by `load_all_jobs`.
Nullable columns are `Option`. -/
structure ScheduleRow where
  user_id : Int
  mode : Option String
  tz : Option String
  hour : Option Int
  minute : Option Int
  weekdays : Option String
  monthdays : Option String
deriving DecidableEq, Repr

/-- The loop body of `app.load_all_jobs`: one `schedule_user_job` call
for a row, substituting Python-falsy defaults (`mode or "daily"`,
`tz or "Asia/Kolkata"`, `hour or 9`, `minute or 30`). -/
def scheduleRow (reg : Registry) (r : ScheduleRow) : Registry × Option String :=
  schedule_user_job reg r.user_id (pyOrStr r.mode "daily")
    (pyOrStr r.tz "Asia/Kolkata") (pyOrInt r.hour 9) (pyOrInt r.minute 30)
    r.weekdays r.monthdays

/-- `app.load_all_jobs`: iterate the schedule snapshot and call
`schedule_user_job` for each row. An exception from a row stops the
loop and propagates. -/
def load_all_jobs (reg : Registry) (rows : List ScheduleRow) :
    Registry × Option String :=
  match rows with
  | [] => (reg, none)
  | r :: rest =>
    let step := scheduleRow reg r
    match step.2 with
    | some e => (step.1, some e)
    | none => load_all_jobs step.1 rest

/-! ## The `/set-schedule-advanced` route -/

/-- Outcome of a route invocation: a JSON success, an `HTTPException`,
or an unhandled Python exception (surfacing as a 500). -/
inductive ApiResult where
  | ok : ApiResult
  | httpError (code : Nat) (msg : String) : ApiResult
  | pyError (msg : String) : ApiResult
deriving DecidableEq, Repr

/-- The `UPDATE ... WHERE user_id=?` / fallback `INSERT` pair in
`set_schedule_advanced`. -/
def updateSchedules (db : List ScheduleRow) (user_id : Int) (mode tz : String)
    (hour minute : Int) (weekdays monthdays : Option String) : List ScheduleRow :=
  if db.any (fun r => r.user_id == user_id) then
    db.map (fun r =>
      if r.user_id == user_id then
        { r with mode := some mode, tz := some tz, hour := some hour,
                 minute := some minute, weekdays := weekdays, monthdays := monthdays }
      else r)
  else
    db ++ [⟨user_id, some mode, some tz, some hour, some minute, weekdays, monthdays⟩]

/-- `app.set_schedule_advanced`: validate the timezone and the mode
(rejecting with HTTP 400 before any state change), then write the
schedule row and call `schedule_user_job`. `hour` and `minute` are not
validated here; an exception from `schedule_user_job` propagates out of
the route unhandled. -/
def set_schedule_advanced (reg : Registry) (db : List ScheduleRow)
    (user_id : Int) (mode tz : String) (hour minute : Int)
    (weekdays monthdays : Option String) :
    Registry × List ScheduleRow × ApiResult :=
  if (resolveTZ tz).isNone then
    (reg, db, .httpError 400 "Invalid timezone")
  else if !(mode == "daily" || mode == "weekly" || mode == "monthly") then
    (reg, db, .httpError 400 "mode must be one of: daily, weekly, monthly")
  else
    let db1 := updateSchedules db user_id mode tz hour minute weekdays monthdays
    let step := schedule_user_job reg user_id mode tz hour minute weekdays monthdays
    match step.2 with
    | some e => (step.1, db1, .pyError e)
    | none => (step.1, db1, .ok)

/-! ## Publish pipeline -/

/-- Effects tracked for the publish pipeline: each external call that
was attempted and each `print` log line. -/
inductive Event where
  | genImage : Event
  | composeImage : Event
  | saveImage : Event
  | fbCall : Event
  | igCreateCall : Event
  | igPublishCall : Event
  | log (msg : String) : Event
deriving DecidableEq, Repr

/-- The body of a response as seen through `.json()`: either not JSON
(`.json()` raises) or a JSON object with an optional `"id"` field. -/
inductive JsonBody where
  | invalid : JsonBody
  | obj (idField : Option String) : JsonBody
deriving DecidableEq, Repr

/-- `data.get("id")` after the `try/except` around `c.json()`:
an unparseable body leaves `data = {}`, so the id is `none`. -/
def JsonBody.creationId : JsonBody → Option String
  | .invalid => none
  | .obj i => i

/-- Result of one `requests.post` call: either the library raised
(transport failure: timeout, connection error) before a response
existed, or a response with a status code and a body arrived (any
status, including platform rejections). -/
inductive HttpResult where
  | exn (msg : String) : HttpResult
  | resp (status : Nat) (body : JsonBody) : HttpResult
deriving DecidableEq, Repr

/-- Oracle for the three `requests.post` calls a single publish can
make. -/
structure Net where
  fbPost : HttpResult
  igCreate : HttpResult
  igPublish : HttpResult
deriving DecidableEq, Repr

/-- A completed or aborted run: the trace of events in order, and the
exception currently propagating, if any. -/
structure Run where
  events : List Event
  exn : Option String
deriving DecidableEq, Repr

/-- Sequencing with Python exception semantics: if the first part
raised, the rest never executes. -/
def Run.seq (r : Run) (rest : Unit → Run) : Run :=
  match r.exn with
  | some _ => r
  | none =>
    let r2 := rest ()
    ⟨r.events ++ r2.events, r2.exn⟩

/-- `app.post_facebook`: a single `requests.post` followed by a
`print` of the status. There is no `try/except` and no
`raise_for_status`: a transport exception propagates, while any HTTP
response (2xx or an error status) is merely logged. -/
def post_facebook (net : Net) : Run :=
  match net.fbPost with
  | .exn e => ⟨[.fbCall], some e⟩
  | .resp _ _ => ⟨[.fbCall, .log "FB status"], none⟩

/-- `app.post_instagram`: phase (i) creates the media object and logs;
if the body yields no creation id the function returns, otherwise phase
(ii) publishes and logs. A transport exception from either call
propagates. -/
def post_instagram (net : Net) : Run :=
  match net.igCreate with
  | .exn e => ⟨[.igCreateCall], some e⟩
  | .resp _ body =>
    match body.creationId with
    | none => ⟨[.igCreateCall, .log "IG create"], none⟩
    | some _ =>
      match net.igPublish with
      | .exn e => ⟨[.igCreateCall, .log "IG create", .igPublishCall], some e⟩
      | .resp _ _ =>
        ⟨[.igCreateCall, .log "IG create", .igPublishCall, .log "IG publish"], none⟩

namespace Poster

/-- `scripts/poster.post_instagram`: same two-phase protocol as
`app.post_instagram`, with an explicit error log when phase (i) yields
no creation id. -/
def post_instagram (net : Net) : Run :=
  match net.igCreate with
  | .exn e => ⟨[.igCreateCall], some e⟩
  | .resp _ body =>
    match body.creationId with
    | none =>
      ⟨[.igCreateCall, .log "IG create",
        .log "IG error: no creation_id returned. Check IG_USER_ID and token scopes."], none⟩
    | some _ =>
      match net.igPublish with
      | .exn e => ⟨[.igCreateCall, .log "IG create", .igPublishCall], some e⟩
      | .resp _ _ =>
        ⟨[.igCreateCall, .log "IG create", .igPublishCall, .log "IG publish"], none⟩

end Poster

/-- The account row `post_for_user` reads: `page_id`,
`page_access_token`, and the nullable `ig_user_id`. -/
structure Account where
  page_id : String
  page_access_token : String
  ig_user_id : Option String
deriving DecidableEq, Repr

/-- Python truthiness of the `ig_user_id` column (`if ig_user_id:`):
`None` and `""` are falsy. -/
def igTruthy : Option String → Bool
  | none => false
  | some s => s ≠ ""

/-- Outcome of `generate_image` (OpenAI call): success, or a raised
exception (missing key, API error). -/
inductive GenOutcome where
  | ok : GenOutcome
  | exn (msg : String) : GenOutcome
deriving DecidableEq, Repr

/-- `app.post_for_user`: look up the account (logging and returning if
absent), generate, compose and save the image, post to Facebook, and,
only when `ig_user_id` is truthy, post to Instagram. No `try/except`
anywhere on the path: any exception propagates out of the function. -/
def post_for_user (acc : Option Account) (gen : GenOutcome) (net : Net) : Run :=
  match acc with
  | none => ⟨[.log "No account linked for user"], none⟩
  | some a =>
    let genRun : Run :=
      match gen with
      | .exn e => ⟨[.genImage], some e⟩
      | .ok => ⟨[.genImage, .composeImage, .saveImage], none⟩
    genRun.seq fun _ =>
      (post_facebook net).seq fun _ =>
        if igTruthy a.ig_user_id then post_instagram net else ⟨[], none⟩

/-! ## Registry lemmas -/

theorem countKey_append (a b : Registry) (k : String) :
    countKey (a ++ b) k = countKey a k + countKey b k := by
  simp [countKey, List.filter_append]

theorem countKey_removeJob_self (reg : Registry) (k : String) :
    countKey (removeJob reg k) k = 0 := by
  induction reg with
  | nil => rfl
  | cons a as ih =>
    cases hak : (a.1 == k) with
    | false => simpa [countKey, removeJob, List.filter_cons, hak] using ih
    | true => simpa [countKey, removeJob, List.filter_cons, hak] using ih

theorem countKey_removeJob_other (reg : Registry) (k k' : String) (h : k' ≠ k) :
    countKey (removeJob reg k) k' = countKey reg k' := by
  induction reg with
  | nil => rfl
  | cons a as ih =>
    cases hak : (a.1 == k) with
    | false =>
      cases hak' : (a.1 == k') with
      | false => simpa [countKey, removeJob, List.filter_cons, hak, hak'] using ih
      | true => simpa [countKey, removeJob, List.filter_cons, hak, hak'] using ih
    | true =>
      have hk : a.1 = k := by simpa using hak
      have hak' : (a.1 == k') = false := by
        simp [hk]
        exact fun hcontra => h hcontra.symm
      simpa [countKey, removeJob, List.filter_cons, hak, hak'] using ih

theorem removeJob_any_self (reg : Registry) (k : String) :
    (removeJob reg k).any (fun p => p.1 == k) = false := by
  induction reg with
  | nil => rfl
  | cons a as ih =>
    cases hak : (a.1 == k) with
    | false => simpa [removeJob, List.filter_cons, hak] using ih
    | true => simpa [removeJob, List.filter_cons, hak] using ih

theorem addJob_after_remove (reg : Registry) (k : String) (j : Job) :
    addJob (removeJob reg k) k j = .ok (removeJob reg k ++ [(k, j)]) := by
  simp [addJob, removeJob_any_self]

/-- Full characterization of a `schedule_user_job` call whose trigger
construction succeeds. -/
theorem schedule_user_job_eq_of_ok {mode tz : String} {hour minute : Int}
    {wc mc : Option String} {trig : CronTrigger}
    (h : computeTrigger mode (tzOrUTC tz) hour minute wc mc = .ok trig)
    (reg : Registry) (u : Int) :
    schedule_user_job reg u mode tz hour minute wc mc =
      (removeJob reg (jobId u) ++ [(jobId u, ⟨trig, u⟩)], none) := by
  simp [schedule_user_job, h, addJob_after_remove]

/-- Full characterization of a `schedule_user_job` call whose trigger
construction raises: the old job is gone and no new job was added. -/
theorem schedule_user_job_eq_of_error {mode tz : String} {hour minute : Int}
    {wc mc : Option String} {e : String}
    (h : computeTrigger mode (tzOrUTC tz) hour minute wc mc = .error e)
    (reg : Registry) (u : Int) :
    schedule_user_job reg u mode tz hour minute wc mc =
      (removeJob reg (jobId u), some e) := by
  simp [schedule_user_job, h]

/-- A successful `schedule_user_job` leaves exactly one job under the
user's id. -/
theorem schedule_ok_countKey_self {reg : Registry} {u : Int}
    {mode tz : String} {hour minute : Int} {wc mc : Option String}
    (h : (schedule_user_job reg u mode tz hour minute wc mc).2 = none) :
    countKey (schedule_user_job reg u mode tz hour minute wc mc).1 (jobId u) = 1 := by
  cases hct : computeTrigger mode (tzOrUTC tz) hour minute wc mc with
  | error e => rw [schedule_user_job_eq_of_error hct] at h; simp at h
  | ok trig =>
    rw [schedule_user_job_eq_of_ok hct, countKey_append, countKey_removeJob_self]
    simp [countKey]

/-- `schedule_user_job` does not touch jobs stored under other ids,
whether it succeeds or raises. -/
theorem schedule_countKey_other (reg : Registry) (u : Int)
    (mode tz : String) (hour minute : Int) (wc mc : Option String)
    (k : String) (hk : k ≠ jobId u) :
    countKey (schedule_user_job reg u mode tz hour minute wc mc).1 k =
      countKey reg k := by
  cases hct : computeTrigger mode (tzOrUTC tz) hour minute wc mc with
  | error e =>
    rw [schedule_user_job_eq_of_error hct]
    exact countKey_removeJob_other reg (jobId u) k hk
  | ok trig =>
    rw [schedule_user_job_eq_of_ok hct]
    have hk2 : (jobId u == k) = false := by
      simp only [beq_eq_false_iff_ne]
      exact Ne.symm hk
    have h1 : countKey [(jobId u, (⟨trig, u⟩ : Job))] k = 0 := by
      simp [countKey, hk2]
    simp [countKey_append, countKey_removeJob_other reg (jobId u) k hk, h1]

/-- A successful `schedule_user_job` preserves the single-job property
of every id: the id it rewrites holds one job afterwards, and other ids
are untouched. -/
theorem schedule_ok_preserves_one {reg : Registry} {u : Int}
    {mode tz : String} {hour minute : Int} {wc mc : Option String} {k : String}
    (h : (schedule_user_job reg u mode tz hour minute wc mc).2 = none)
    (h1 : countKey reg k = 1) :
    countKey (schedule_user_job reg u mode tz hour minute wc mc).1 k = 1 := by
  by_cases hk : k = jobId u
  · subst hk; exact schedule_ok_countKey_self h
  · rw [schedule_countKey_other reg u mode tz hour minute wc mc k hk]; exact h1

/-- Inversion for a successful `load_all_jobs` on a nonempty snapshot:
the head row succeeds and the tail run starts from its registry. -/
theorem load_all_cons_ok {reg reg2 : Registry} {r : ScheduleRow}
    {rest : List ScheduleRow}
    (h : load_all_jobs reg (r :: rest) = (reg2, none)) :
    (scheduleRow reg r).2 = none ∧
      load_all_jobs (scheduleRow reg r).1 rest = (reg2, none) := by
  cases hstep : (scheduleRow reg r).2 with
  | some e => simp [load_all_jobs, hstep] at h
  | none =>
    refine ⟨rfl, ?_⟩
    simpa [load_all_jobs, hstep] using h

/-- A successful `load_all_jobs` run preserves the single-job property
of any id. -/
theorem load_all_preserves_one (rows : List ScheduleRow) :
    ∀ reg reg2 : Registry, ∀ k : String,
      load_all_jobs reg rows = (reg2, none) →
      countKey reg k = 1 → countKey reg2 k = 1 := by
  induction rows with
  | nil =>
    intro reg reg2 k h h1
    simp [load_all_jobs] at h
    rw [← h]; exact h1
  | cons r rest ih =>
    intro reg reg2 k h h1
    obtain ⟨hstep, hrest⟩ := load_all_cons_ok h
    exact ih _ _ _ hrest (schedule_ok_preserves_one hstep h1)

/-- A successful `load_all_jobs` run leaves untouched every id that no
snapshot row maps to. -/
theorem load_all_other_keys (rows : List ScheduleRow) :
    ∀ reg reg2 : Registry, ∀ k : String,
      load_all_jobs reg rows = (reg2, none) →
      (∀ r ∈ rows, k ≠ jobId r.user_id) →
      countKey reg2 k = countKey reg k := by
  induction rows with
  | nil =>
    intro reg reg2 k h _
    simp [load_all_jobs] at h
    rw [h]
  | cons r rest ih =>
    intro reg reg2 k h hk
    obtain ⟨hstep, hrest⟩ := load_all_cons_ok h
    have hhead : k ≠ jobId r.user_id := hk r (by simp)
    have htail : ∀ r2 ∈ rest, k ≠ jobId r2.user_id :=
      fun r2 hr2 => hk r2 (List.mem_cons_of_mem r hr2)
    rw [ih _ _ _ hrest htail]
    exact schedule_countKey_other reg r.user_id _ _ _ _ _ _ k hhead

/-- After a successful `load_all_jobs` run, every user appearing in the
snapshot has exactly one live job. -/
theorem load_all_mem_one (rows : List ScheduleRow) :
    ∀ reg reg2 : Registry,
      load_all_jobs reg rows = (reg2, none) →
      ∀ u : Int, u ∈ rows.map ScheduleRow.user_id →
      countKey reg2 (jobId u) = 1 := by
  induction rows with
  | nil => intro reg reg2 _ u hu; simp at hu
  | cons r rest ih =>
    intro reg reg2 h u hu
    obtain ⟨hstep, hrest⟩ := load_all_cons_ok h
    rcases List.mem_map.mp hu with ⟨r2, hr2, hur2⟩
    rcases List.mem_cons.mp hr2 with hhead | htail
    · have h1 : countKey (scheduleRow reg r).1 (jobId u) = 1 := by
        rw [← hur2, hhead]
        exact schedule_ok_countKey_self hstep
      exact load_all_preserves_one rest _ _ _ hrest h1
    · exact ih _ _ hrest u (List.mem_map.mpr ⟨r2, htail, hur2⟩)

/-- Looking up the job just appended behind entries with other keys. -/
theorem getJob_removeJob_append (reg : Registry) (k : String) (j : Job) :
    getJob (removeJob reg k ++ [(k, j)]) k = some j := by
  induction reg with
  | nil => simp [getJob, removeJob]
  | cons a as ih =>
    cases hak : (a.1 == k) with
    | false => simpa [getJob, removeJob, List.filter_cons, hak, List.find?] using ih
    | true => simpa [getJob, removeJob, List.filter_cons, hak, List.find?] using ih

/-! ## Parsing and trigger lemmas -/

/-- The piece traversal fails as soon as one piece fails to parse. -/
theorem intsOfPieces_none {l : List String}
    (h : ∃ x ∈ l, parsePyInt x = none) : intsOfPieces l = none := by
  induction l with
  | nil => simp at h
  | cons a as ih =>
    rcases h with ⟨x, hx, hfx⟩
    rcases List.mem_cons.mp hx with rfl | hmem
    · simp [intsOfPieces, hfx]
    · cases hfa : parsePyInt a with
      | none => simp [intsOfPieces, hfa]
      | some b => simp [intsOfPieces, hfa, ih ⟨x, hmem, hfx⟩]

/-- One malformed piece poisons the whole CSV: `parse_csv_ints` returns
`[]` (the `except` branch) whenever some comma-separated piece is
nonempty after stripping but not an integer literal. -/
theorem parse_csv_ints_of_bad_piece {s : String}
    (h : ∃ x ∈ splitOnComma s, pyStrip x ≠ "" ∧ parsePyInt (pyStrip x) = none) :
    parse_csv_ints (some s) = [] := by
  rcases h with ⟨x, hx, hne, hparse⟩
  by_cases hs : s = ""
  · simp [parse_csv_ints, hs]
  · have hmem : pyStrip x ∈ ((splitOnComma s).map pyStrip).filter (fun p => p ≠ "") := by
      apply List.mem_filter.mpr
      exact ⟨List.mem_map.mpr ⟨x, hx, rfl⟩, by simpa using hne⟩
    have hnone :
        intsOfPieces (((splitOnComma s).map pyStrip).filter (fun p => p ≠ "")) = none :=
      intsOfPieces_none ⟨pyStrip x, hmem, hparse⟩
    simp only [ne_eq, decide_not] at hnone
    simp [parse_csv_ints, hs, hnone]

/-- In weekly mode an empty day selector yields the `"mon"` default. -/
theorem computeTrigger_weekly_default {z : String} {h m : Int} {wc mc : Option String}
    (hp : parse_csv_ints wc = []) (hh0 : 0 ≤ h) (hh1 : h ≤ 23)
    (hm0 : 0 ≤ m) (hm1 : m ≤ 59) :
    computeTrigger "weekly" z h m wc mc =
      .ok ⟨some ["mon"], none, h, m, z⟩ := by
  have e1 : ¬ (h < 0) := not_lt.mpr hh0
  have e2 : ¬ (23 < h) := not_lt.mpr hh1
  have e3 : ¬ (m < 0) := not_lt.mpr hm0
  have e4 : ¬ (59 < m) := not_lt.mpr hm1
  simp [computeTrigger, hp, mkCronTrigger, DOW_MAP, VALID_DOW_NAMES, e1, e2, e3, e4]

/-- In monthly mode an empty day selector yields the day-1 default. -/
theorem computeTrigger_monthly_default {z : String} {h m : Int} {wc mc : Option String}
    (hp : parse_csv_ints mc = []) (hh0 : 0 ≤ h) (hh1 : h ≤ 23)
    (hm0 : 0 ≤ m) (hm1 : m ≤ 59) :
    computeTrigger "monthly" z h m wc mc =
      .ok ⟨none, some [1], h, m, z⟩ := by
  have e1 : ¬ (h < 0) := not_lt.mpr hh0
  have e2 : ¬ (23 < h) := not_lt.mpr hh1
  have e3 : ¬ (m < 0) := not_lt.mpr hm0
  have e4 : ¬ (59 < m) := not_lt.mpr hm1
  simp [computeTrigger, hp, mkCronTrigger, e1, e2, e3, e4]

/-- In daily mode (and for any unknown mode, which falls into the same
`else` branch) the trigger carries only the time fields. -/
theorem computeTrigger_daily {z : String} {h m : Int} {wc mc : Option String}
    (hh0 : 0 ≤ h) (hh1 : h ≤ 23) (hm0 : 0 ≤ m) (hm1 : m ≤ 59) :
    computeTrigger "daily" z h m wc mc = .ok ⟨none, none, h, m, z⟩ := by
  have e1 : ¬ (h < 0) := not_lt.mpr hh0
  have e2 : ¬ (23 < h) := not_lt.mpr hh1
  have e3 : ¬ (m < 0) := not_lt.mpr hm0
  have e4 : ¬ (59 < m) := not_lt.mpr hm1
  simp [computeTrigger, mkCronTrigger, e1, e2, e3, e4]

/-- Any mode outside the three known ones falls into the final `else`
and builds the daily-shaped trigger. -/
theorem computeTrigger_unknown_mode {mode z : String} {h m : Int}
    {wc mc : Option String}
    (hmode : mode ≠ "daily" ∧ mode ≠ "weekly" ∧ mode ≠ "monthly")
    (hh0 : 0 ≤ h) (hh1 : h ≤ 23) (hm0 : 0 ≤ m) (hm1 : m ≤ 59) :
    computeTrigger mode z h m wc mc = .ok ⟨none, none, h, m, z⟩ := by
  have e1 : ¬ (h < 0) := not_lt.mpr hh0
  have e2 : ¬ (23 < h) := not_lt.mpr hh1
  have e3 : ¬ (m < 0) := not_lt.mpr hm0
  have e4 : ¬ (59 < m) := not_lt.mpr hm1
  simp [computeTrigger, hmode.1, hmode.2.1, hmode.2.2, mkCronTrigger, e1, e2, e3, e4]

/-- An out-of-range hour makes every mode branch raise from
`CronTrigger` construction. -/
theorem computeTrigger_bad_hour {mode z : String} {h m : Int}
    {wc mc : Option String} (hh : 23 < h) :
    computeTrigger mode z h m wc mc = .error "ValueError: hour out of range" := by
  have e2 : (23 < h) := hh
  unfold computeTrigger
  by_cases h1 : mode = "daily" <;> by_cases h2 : mode = "weekly" <;>
    by_cases h3 : mode = "monthly" <;>
    simp [h1, h2, h3, mkCronTrigger, e2]

/-! ## Claim theorems -/

/-- Claim C1, counterexample. The claim says `schedule_user_job` fails
with a validation error and installs no job whenever the timezone is
not a resolvable zone id. On the code, an unresolvable timezone is
silently replaced by UTC and a job IS installed, with no failure: here
`"Not/A/Zone"` does not resolve, yet the call returns no exception and
leaves one live job for the user. -/
theorem C1_counterexample :
    resolveTZ "Not/A/Zone" = none ∧
    (schedule_user_job [] 1 "daily" "Not/A/Zone" 9 30 none none).2 = none ∧
    countKey (schedule_user_job [] 1 "daily" "Not/A/Zone" 9 30 none none).1 (jobId 1) = 1 := by
  refine ⟨rfl, rfl, rfl⟩

/-- Claim C1, amended. `schedule_user_job` itself never rejects: an
unresolvable timezone falls back to UTC and a job is installed (part 1);
a mode outside {daily, weekly, monthly} falls into the `else` branch and
produces the daily-shaped trigger (part 2); an out-of-range hour makes
`CronTrigger` construction raise `ValueError` after the old job was
already removed, so no job is installed for that user but the error is
not a client-visible validation error (part 3). The route
`set_schedule_advanced` does reject an invalid timezone (part 4) and an
invalid mode (part 5) with HTTP 400 before any state change, but never
validates hour or minute. -/
theorem C1_amended :
    (∀ (reg : Registry) (u : Int) (tz : String) (h m : Int),
      resolveTZ tz = none → 0 ≤ h → h ≤ 23 → 0 ≤ m → m ≤ 59 →
      schedule_user_job reg u "daily" tz h m none none =
        (removeJob reg (jobId u) ++ [(jobId u, ⟨⟨none, none, h, m, "UTC"⟩, u⟩)], none)) ∧
    (∀ (mode z : String) (h m : Int) (wc mc : Option String),
      mode ≠ "daily" → mode ≠ "weekly" → mode ≠ "monthly" →
      0 ≤ h → h ≤ 23 → 0 ≤ m → m ≤ 59 →
      computeTrigger mode z h m wc mc = .ok ⟨none, none, h, m, z⟩) ∧
    (∀ (reg : Registry) (u : Int) (mode tz : String) (h m : Int) (wc mc : Option String),
      23 < h →
      (schedule_user_job reg u mode tz h m wc mc).2 =
          some "ValueError: hour out of range" ∧
        countKey (schedule_user_job reg u mode tz h m wc mc).1 (jobId u) = 0) ∧
    (∀ (reg : Registry) (db : List ScheduleRow) (u : Int) (mode tz : String)
        (h m : Int) (wc mc : Option String),
      resolveTZ tz = none →
      set_schedule_advanced reg db u mode tz h m wc mc =
        (reg, db, .httpError 400 "Invalid timezone")) ∧
    (∀ (reg : Registry) (db : List ScheduleRow) (u : Int) (mode tz : String)
        (h m : Int) (wc mc : Option String),
      resolveTZ tz ≠ none → mode ≠ "daily" → mode ≠ "weekly" → mode ≠ "monthly" →
      set_schedule_advanced reg db u mode tz h m wc mc =
        (reg, db, .httpError 400 "mode must be one of: daily, weekly, monthly")) := by
  refine ⟨?_, ?_, ?_, ?_, ?_⟩
  · intro reg u tz h m htz hh0 hh1 hm0 hm1
    have hz : tzOrUTC tz = "UTC" := by simp [tzOrUTC, htz]
    have hct : computeTrigger "daily" (tzOrUTC tz) h m none none =
        .ok ⟨none, none, h, m, "UTC"⟩ := by
      rw [hz]; exact computeTrigger_daily hh0 hh1 hm0 hm1
    exact schedule_user_job_eq_of_ok hct reg u
  · intro mode z h m wc mc h1 h2 h3 hh0 hh1 hm0 hm1
    exact computeTrigger_unknown_mode ⟨h1, h2, h3⟩ hh0 hh1 hm0 hm1
  · intro reg u mode tz h m wc mc hh
    have hct := @computeTrigger_bad_hour mode (tzOrUTC tz) h m wc mc hh
    rw [schedule_user_job_eq_of_error hct]
    exact ⟨rfl, countKey_removeJob_self reg (jobId u)⟩
  · intro reg db u mode tz h m wc mc htz
    simp [set_schedule_advanced, htz]
  · intro reg db u mode tz h m wc mc htz h1 h2 h3
    have hr : (resolveTZ tz).isNone = false := by
      cases hres : resolveTZ tz with
      | none => exact absurd hres htz
      | some z => rfl
    simp [set_schedule_advanced, hr, h1, h2, h3]

/-- Claim C1, witness: the amended statement applied at concrete
inputs. -/
theorem C1_amended_witness :
    schedule_user_job [] 7 "daily" "Mars/Phobos" 8 15 none none =
      (removeJob [] (jobId 7) ++ [(jobId 7, ⟨⟨none, none, 8, 15, "UTC"⟩, 7⟩)], none) ∧
    computeTrigger "hourly" "UTC" 8 15 none none = .ok ⟨none, none, 8, 15, "UTC"⟩ ∧
    ((schedule_user_job [] 7 "daily" "UTC" 40 0 none none).2 =
        some "ValueError: hour out of range" ∧
      countKey (schedule_user_job [] 7 "daily" "UTC" 40 0 none none).1 (jobId 7) = 0) ∧
    set_schedule_advanced [] [] 7 "daily" "Mars/Phobos" 9 30 none none =
      ([], [], .httpError 400 "Invalid timezone") ∧
    set_schedule_advanced [] [] 7 "hourly" "UTC" 9 30 none none =
      ([], [], .httpError 400 "mode must be one of: daily, weekly, monthly") :=
  ⟨C1_amended.1 [] 7 "Mars/Phobos" 8 15 (by decide) (by decide) (by decide)
      (by decide) (by decide),
   C1_amended.2.1 "hourly" "UTC" 8 15 none none (by decide) (by decide) (by decide)
      (by decide) (by decide) (by decide) (by decide),
   C1_amended.2.2.1 [] 7 "daily" "UTC" 40 0 none none (by decide),
   C1_amended.2.2.2.1 [] [] 7 "daily" "Mars/Phobos" 9 30 none none (by decide),
   C1_amended.2.2.2.2 [] [] 7 "hourly" "UTC" 9 30 none none (by decide) (by decide)
      (by decide) (by decide)⟩

/-- Claim C2: installing a job for a user and then installing another
for the same user leaves exactly one live job under that user's id, and
that job carries the second rule (the second `schedule_user_job` removes
the first job before adding its own). The first install's inputs are
arbitrary; the second install's trigger construction is assumed to
succeed with rule `trigB`. -/
theorem C2_install_twice {reg : Registry} {u : Int}
    {modeA tzA : String} {hA mA : Int} {wcA mcA : Option String}
    {modeB tzB : String} {hB mB : Int} {wcB mcB : Option String} {trigB : CronTrigger}
    (hB2 : computeTrigger modeB (tzOrUTC tzB) hB mB wcB mcB = .ok trigB) :
    countKey (schedule_user_job (schedule_user_job reg u modeA tzA hA mA wcA mcA).1
        u modeB tzB hB mB wcB mcB).1 (jobId u) = 1 ∧
    getJob (schedule_user_job (schedule_user_job reg u modeA tzA hA mA wcA mcA).1
        u modeB tzB hB mB wcB mcB).1 (jobId u) = some ⟨trigB, u⟩ := by
  rw [schedule_user_job_eq_of_ok hB2]
  constructor
  · rw [countKey_append, countKey_removeJob_self]; simp [countKey]
  · exact getJob_removeJob_append _ (jobId u) ⟨trigB, u⟩

/-- Claim C2, witness: a daily rule then a weekly rule for user 7; the
surviving job carries the weekly rule. -/
theorem C2_install_twice_witness :
    countKey (schedule_user_job (schedule_user_job [] 7 "daily" "UTC" 9 30 none none).1
        7 "weekly" "UTC" 10 0 (some "1") none).1 (jobId 7) = 1 ∧
    getJob (schedule_user_job (schedule_user_job [] 7 "daily" "UTC" 9 30 none none).1
        7 "weekly" "UTC" 10 0 (some "1") none).1 (jobId 7) =
      some ⟨⟨some ["tue"], none, 10, 0, "UTC"⟩, 7⟩ :=
  C2_install_twice (by rfl)

/-- A registry with one live job for user 1, used to exhibit the
orphan behaviour of `load_all_jobs`. -/
def demoJob : Job := ⟨⟨none, none, 9, 30, "UTC"⟩, 1⟩

/-- Claim C3, counterexample. The claim says that after `load_all_jobs`
no job remains for a user absent from the snapshot. On the code,
`load_all_jobs` only upserts per row and never removes anything: with
user 1 holding a live job and an empty snapshot, the run succeeds yet
user 1's job survives even though user 1 is in no snapshot row. -/
theorem C3_counterexample :
    load_all_jobs [(jobId 1, demoJob)] [] = ([(jobId 1, demoJob)], none) ∧
    countKey [(jobId 1, demoJob)] (jobId 1) = 1 ∧
    ([] : List ScheduleRow).map ScheduleRow.user_id = [] :=
  ⟨rfl, rfl, rfl⟩

/-- Claim C3, amended. `load_all_jobs` tolerates an empty snapshot as a
no-op (part 1) and, on a successful run, installs exactly one job per
user appearing in the snapshot (part 3) — but it leaves jobs of users
absent from the snapshot untouched, so orphaned jobs persist
(part 2). -/
theorem C3_amended :
    (∀ reg : Registry, load_all_jobs reg [] = (reg, none)) ∧
    (∀ (reg reg2 : Registry) (rows : List ScheduleRow) (k : String),
      load_all_jobs reg rows = (reg2, none) →
      (∀ r ∈ rows, k ≠ jobId r.user_id) →
      countKey reg2 k = countKey reg k) ∧
    (∀ (reg reg2 : Registry) (rows : List ScheduleRow),
      load_all_jobs reg rows = (reg2, none) →
      ∀ u ∈ rows.map ScheduleRow.user_id, countKey reg2 (jobId u) = 1) := by
  refine ⟨fun reg => rfl, ?_, ?_⟩
  · intro reg reg2 rows k h hk
    exact load_all_other_keys rows reg reg2 k h hk
  · intro reg reg2 rows h u hu
    exact load_all_mem_one rows reg reg2 h u hu

/-- Claim C3, witness: with user 1 holding a job and a snapshot naming
only user 2, a reload keeps user 1's orphan and gives user 2 exactly
one job. -/
theorem C3_amended_witness :
    load_all_jobs [(jobId 1, demoJob)] [] = ([(jobId 1, demoJob)], none) ∧
    countKey [(jobId 1, demoJob), (jobId 2, ⟨⟨none, none, 9, 30, "UTC"⟩, 2⟩)] (jobId 1) =
      countKey [(jobId 1, demoJob)] (jobId 1) ∧
    countKey [(jobId 1, demoJob), (jobId 2, ⟨⟨none, none, 9, 30, "UTC"⟩, 2⟩)] (jobId 2) = 1 :=
  ⟨C3_amended.1 [(jobId 1, demoJob)],
   C3_amended.2.1 [(jobId 1, demoJob)] _
     [⟨2, some "daily", some "UTC", some 9, some 30, none, none⟩] (jobId 1)
     (by decide) (by decide),
   C3_amended.2.2 [(jobId 1, demoJob)] _
     [⟨2, some "daily", some "UTC", some 9, some 30, none, none⟩]
     (by decide) 2 (by decide)⟩

/-- Claim C4, counterexample. The claim says that for every outcome of
the primary post — including transport failure — the secondary post is
still attempted and no publish-stage error escapes `post_for_user`. On
the code, `post_facebook` has no `try/except`: a transport exception
from `requests.post` propagates out of `post_for_user` and the
Instagram sub-protocol is never attempted, even though an Instagram
account id is present. -/
theorem C4_counterexample :
    (post_for_user (some ⟨"page", "tok", some "ig1"⟩) GenOutcome.ok
        ⟨HttpResult.exn "ConnectionError", HttpResult.resp 200 (JsonBody.obj (some "c")),
         HttpResult.resp 200 (JsonBody.obj none)⟩).exn = some "ConnectionError" ∧
    Event.igCreateCall ∉
      (post_for_user (some ⟨"page", "tok", some "ig1"⟩) GenOutcome.ok
        ⟨HttpResult.exn "ConnectionError", HttpResult.resp 200 (JsonBody.obj (some "c")),
         HttpResult.resp 200 (JsonBody.obj none)⟩).events := by
  refine ⟨rfl, by decide⟩

/-- Claim C4, amended. When the primary platform call returns an HTTP
response — any status, including a platform rejection, since
`post_facebook` never calls `raise_for_status` — the outcome is logged
and the secondary sub-protocol is still attempted, with no error raised
(part 1). But when the primary call raises a transport-level exception,
that exception propagates out of `post_for_user` and the secondary
sub-protocol is never attempted (part 2). -/
theorem C4_amended :
    (∀ (a : Account) (status : Nat) (body : JsonBody) (igc igp : HttpResult),
      igTruthy a.ig_user_id = true →
      Event.log "FB status" ∈ (post_for_user (some a) GenOutcome.ok
          ⟨HttpResult.resp status body, igc, igp⟩).events ∧
      Event.igCreateCall ∈ (post_for_user (some a) GenOutcome.ok
          ⟨HttpResult.resp status body, igc, igp⟩).events) ∧
    (∀ (a : Account) (e : String) (igc igp : HttpResult),
      igTruthy a.ig_user_id = true →
      (post_for_user (some a) GenOutcome.ok ⟨HttpResult.exn e, igc, igp⟩).exn = some e ∧
      Event.igCreateCall ∉ (post_for_user (some a) GenOutcome.ok
          ⟨HttpResult.exn e, igc, igp⟩).events) := by
  constructor
  · intro a status body igc igp ht
    cases igc with
    | exn e2 =>
      simp [post_for_user, post_facebook, post_instagram, Run.seq, ht]
    | resp st b =>
      cases hb : b.creationId with
      | none => simp [post_for_user, post_facebook, post_instagram, Run.seq, ht, hb]
      | some cid =>
        cases igp with
        | exn e3 => simp [post_for_user, post_facebook, post_instagram, Run.seq, ht, hb]
        | resp st2 b2 => simp [post_for_user, post_facebook, post_instagram, Run.seq, ht, hb]
  · intro a e igc igp ht
    simp [post_for_user, post_facebook, Run.seq]

/-- Claim C4, witness: the amended statement at a concrete account with
an Instagram id, a rejected (HTTP 400) primary response for part 1, and
a timed-out primary call for part 2. -/
theorem C4_amended_witness :
    (Event.log "FB status" ∈ (post_for_user (some ⟨"p", "t", some "ig1"⟩) GenOutcome.ok
        ⟨HttpResult.resp 400 JsonBody.invalid, HttpResult.resp 200 (JsonBody.obj (some "c")),
         HttpResult.resp 200 (JsonBody.obj none)⟩).events ∧
      Event.igCreateCall ∈ (post_for_user (some ⟨"p", "t", some "ig1"⟩) GenOutcome.ok
        ⟨HttpResult.resp 400 JsonBody.invalid, HttpResult.resp 200 (JsonBody.obj (some "c")),
         HttpResult.resp 200 (JsonBody.obj none)⟩).events) ∧
    ((post_for_user (some ⟨"p", "t", some "ig1"⟩) GenOutcome.ok
        ⟨HttpResult.exn "Timeout", HttpResult.resp 200 (JsonBody.obj (some "c")),
         HttpResult.resp 200 (JsonBody.obj none)⟩).exn = some "Timeout" ∧
      Event.igCreateCall ∉ (post_for_user (some ⟨"p", "t", some "ig1"⟩) GenOutcome.ok
        ⟨HttpResult.exn "Timeout", HttpResult.resp 200 (JsonBody.obj (some "c")),
         HttpResult.resp 200 (JsonBody.obj none)⟩).events) :=
  ⟨C4_amended.1 ⟨"p", "t", some "ig1"⟩ 400 JsonBody.invalid
      (HttpResult.resp 200 (JsonBody.obj (some "c")))
      (HttpResult.resp 200 (JsonBody.obj none)) (by decide),
   C4_amended.2 ⟨"p", "t", some "ig1"⟩ "Timeout"
      (HttpResult.resp 200 (JsonBody.obj (some "c")))
      (HttpResult.resp 200 (JsonBody.obj none)) (by decide)⟩

/-- Claim C5: when phase (i) of the Instagram protocol returns a
response whose body yields no creation identifier, phase (ii) is never
invoked, phase (i) is not retried (exactly one create call appears in
the trace), no exception escapes, and the partial failure is recorded
as the logged phase-(i) outcome — in the script variant with an
explicit error line. Holds for both `post_instagram` implementations. -/
theorem C5_no_creation_id {status : Nat} {body : JsonBody} {fb igp : HttpResult}
    (hb : body.creationId = none) :
    (post_instagram ⟨fb, HttpResult.resp status body, igp⟩).events =
        [Event.igCreateCall, Event.log "IG create"] ∧
    (post_instagram ⟨fb, HttpResult.resp status body, igp⟩).exn = none ∧
    Event.igPublishCall ∉ (post_instagram ⟨fb, HttpResult.resp status body, igp⟩).events ∧
    ((post_instagram ⟨fb, HttpResult.resp status body, igp⟩).events).count
        Event.igCreateCall = 1 ∧
    (Poster.post_instagram ⟨fb, HttpResult.resp status body, igp⟩).events =
        [Event.igCreateCall, Event.log "IG create",
         Event.log "IG error: no creation_id returned. Check IG_USER_ID and token scopes."] ∧
    (Poster.post_instagram ⟨fb, HttpResult.resp status body, igp⟩).exn = none ∧
    Event.igPublishCall ∉
      (Poster.post_instagram ⟨fb, HttpResult.resp status body, igp⟩).events := by
  refine ⟨?_, ?_, ?_, ?_, ?_, ?_, ?_⟩ <;>
    simp [post_instagram, Poster.post_instagram, hb]

/-- Claim C5, witness: a phase-(i) response whose body is not JSON
yields no creation id; phase (ii) is skipped in both implementations. -/
theorem C5_no_creation_id_witness :
    (post_instagram ⟨HttpResult.resp 200 (JsonBody.obj (some "x")),
        HttpResult.resp 200 JsonBody.invalid,
        HttpResult.resp 200 (JsonBody.obj none)⟩).events =
      [Event.igCreateCall, Event.log "IG create"] ∧
    (post_instagram ⟨HttpResult.resp 200 (JsonBody.obj (some "x")),
        HttpResult.resp 200 JsonBody.invalid,
        HttpResult.resp 200 (JsonBody.obj none)⟩).exn = none ∧
    Event.igPublishCall ∉ (post_instagram ⟨HttpResult.resp 200 (JsonBody.obj (some "x")),
        HttpResult.resp 200 JsonBody.invalid,
        HttpResult.resp 200 (JsonBody.obj none)⟩).events ∧
    ((post_instagram ⟨HttpResult.resp 200 (JsonBody.obj (some "x")),
        HttpResult.resp 200 JsonBody.invalid,
        HttpResult.resp 200 (JsonBody.obj none)⟩).events).count Event.igCreateCall = 1 ∧
    (Poster.post_instagram ⟨HttpResult.resp 200 (JsonBody.obj (some "x")),
        HttpResult.resp 200 JsonBody.invalid,
        HttpResult.resp 200 (JsonBody.obj none)⟩).events =
      [Event.igCreateCall, Event.log "IG create",
       Event.log "IG error: no creation_id returned. Check IG_USER_ID and token scopes."] ∧
    (Poster.post_instagram ⟨HttpResult.resp 200 (JsonBody.obj (some "x")),
        HttpResult.resp 200 JsonBody.invalid,
        HttpResult.resp 200 (JsonBody.obj none)⟩).exn = none ∧
    Event.igPublishCall ∉
      (Poster.post_instagram ⟨HttpResult.resp 200 (JsonBody.obj (some "x")),
        HttpResult.resp 200 JsonBody.invalid,
        HttpResult.resp 200 (JsonBody.obj none)⟩).events :=
  C5_no_creation_id (by rfl)

/-- Claim C6: when the account's `ig_user_id` is Python-falsy (`None`
or empty), `post_for_user` performs the primary post but never makes
either Instagram call, whatever the network does. -/
theorem C6_secondary_skipped (a : Account) (net : Net)
    (hig : igTruthy a.ig_user_id = false) :
    Event.fbCall ∈ (post_for_user (some a) GenOutcome.ok net).events ∧
    Event.igCreateCall ∉ (post_for_user (some a) GenOutcome.ok net).events ∧
    Event.igPublishCall ∉ (post_for_user (some a) GenOutcome.ok net).events := by
  obtain ⟨fb, igc, igp⟩ := net
  cases fb with
  | exn e => simp [post_for_user, post_facebook, Run.seq, hig]
  | resp st b => simp [post_for_user, post_facebook, Run.seq, hig]

/-- Claim C6, witness: an account with no Instagram id; the primary
call is made and no Instagram call occurs. -/
theorem C6_secondary_skipped_witness :
    Event.fbCall ∈ (post_for_user (some ⟨"p", "t", none⟩) GenOutcome.ok
        ⟨HttpResult.resp 200 (JsonBody.obj none),
         HttpResult.resp 200 (JsonBody.obj (some "c")),
         HttpResult.resp 200 (JsonBody.obj none)⟩).events ∧
    Event.igCreateCall ∉ (post_for_user (some ⟨"p", "t", none⟩) GenOutcome.ok
        ⟨HttpResult.resp 200 (JsonBody.obj none),
         HttpResult.resp 200 (JsonBody.obj (some "c")),
         HttpResult.resp 200 (JsonBody.obj none)⟩).events ∧
    Event.igPublishCall ∉ (post_for_user (some ⟨"p", "t", none⟩) GenOutcome.ok
        ⟨HttpResult.resp 200 (JsonBody.obj none),
         HttpResult.resp 200 (JsonBody.obj (some "c")),
         HttpResult.resp 200 (JsonBody.obj none)⟩).events :=
  C6_secondary_skipped ⟨"p", "t", none⟩
    ⟨HttpResult.resp 200 (JsonBody.obj none),
     HttpResult.resp 200 (JsonBody.obj (some "c")),
     HttpResult.resp 200 (JsonBody.obj none)⟩ (by decide)

/-- Claim C7: with no linked account, `post_for_user` only logs the
absence and returns: no image generation, no artifact persistence, no
platform call, and no escaping exception — for every generation outcome
and every network behaviour. The job registry is not an input of
`post_for_user`, mirroring the source, where the function never touches
the scheduler, so the owning job stays installed. -/
theorem C7_no_account_noop (gen : GenOutcome) (net : Net) :
    post_for_user none gen net = ⟨[Event.log "No account linked for user"], none⟩ ∧
    Event.genImage ∉ (post_for_user none gen net).events ∧
    Event.saveImage ∉ (post_for_user none gen net).events ∧
    Event.fbCall ∉ (post_for_user none gen net).events ∧
    Event.igCreateCall ∉ (post_for_user none gen net).events ∧
    Event.igPublishCall ∉ (post_for_user none gen net).events ∧
    (post_for_user none gen net).exn = none := by
  refine ⟨rfl, ?_, ?_, ?_, ?_, ?_, rfl⟩ <;> simp [post_for_user]

/-- Claim C8: `load_all_jobs` is idempotent on the job set — after two
successful runs on the same snapshot, every user in the snapshot holds
exactly one live job, not two. -/
theorem C8_reload_idempotent {reg reg1 reg2 : Registry} {rows : List ScheduleRow}
    (_h1 : load_all_jobs reg rows = (reg1, none))
    (h2 : load_all_jobs reg1 rows = (reg2, none)) :
    ∀ u ∈ rows.map ScheduleRow.user_id, countKey reg2 (jobId u) = 1 :=
  fun u hu => load_all_mem_one rows reg1 reg2 h2 u hu

/-- Claim C8, witness: reloading a one-row snapshot twice from an empty
registry leaves exactly one job for user 1. -/
theorem C8_reload_idempotent_witness :
    countKey [(jobId 1, ⟨⟨none, none, 9, 30, "UTC"⟩, 1⟩)] (jobId 1) = 1 :=
  @C8_reload_idempotent [] [(jobId 1, ⟨⟨none, none, 9, 30, "UTC"⟩, 1⟩)]
    [(jobId 1, ⟨⟨none, none, 9, 30, "UTC"⟩, 1⟩)]
    [⟨1, some "daily", some "UTC", some 9, some 30, none, none⟩]
    (by rfl) (by rfl) 1 (by decide)

/-- Claim C9: in weekly mode an empty or absent weekday selector makes
the trigger default to Monday (`"mon"`), and in monthly mode an empty
or absent monthday selector makes the trigger default to day 1, at the
given hour and minute. -/
theorem C9_day_selector_defaults {z : String} {h m : Int} {wc mc : Option String}
    (hwc : parse_csv_ints wc = []) (hmc : parse_csv_ints mc = [])
    (hh0 : 0 ≤ h) (hh1 : h ≤ 23) (hm0 : 0 ≤ m) (hm1 : m ≤ 59) :
    computeTrigger "weekly" z h m wc mc = .ok ⟨some ["mon"], none, h, m, z⟩ ∧
    computeTrigger "monthly" z h m wc mc = .ok ⟨none, some [1], h, m, z⟩ :=
  ⟨computeTrigger_weekly_default hwc hh0 hh1 hm0 hm1,
   computeTrigger_monthly_default hmc hh0 hh1 hm0 hm1⟩

/-- Claim C9, witness: an absent weekday selector and an empty monthday
selector at 9:30. -/
theorem C9_day_selector_defaults_witness :
    computeTrigger "weekly" "Asia/Kolkata" 9 30 none (some "") =
      .ok ⟨some ["mon"], none, 9, 30, "Asia/Kolkata"⟩ ∧
    computeTrigger "monthly" "Asia/Kolkata" 9 30 none (some "") =
      .ok ⟨none, some [1], 9, 30, "Asia/Kolkata"⟩ :=
  C9_day_selector_defaults (by rfl) (by rfl) (by decide) (by decide)
    (by decide) (by decide)

/-- Claim C10: a weekday or monthday CSV containing any piece that is
nonempty after stripping but not an integer literal makes
`parse_csv_ints` return `[]` without raising, so the whole malformed
selector is silently replaced by the mode's default — Monday for weekly
mode, day 1 for monthly mode — instead of being rejected. -/
theorem C10_malformed_selector_defaults {s z : String} {h m : Int}
    (hbad : ∃ x ∈ splitOnComma s, pyStrip x ≠ "" ∧ parsePyInt (pyStrip x) = none)
    (hh0 : 0 ≤ h) (hh1 : h ≤ 23) (hm0 : 0 ≤ m) (hm1 : m ≤ 59) :
    parse_csv_ints (some s) = [] ∧
    computeTrigger "weekly" z h m (some s) none = .ok ⟨some ["mon"], none, h, m, z⟩ ∧
    computeTrigger "monthly" z h m none (some s) = .ok ⟨none, some [1], h, m, z⟩ := by
  have hp := parse_csv_ints_of_bad_piece hbad
  exact ⟨hp, computeTrigger_weekly_default hp hh0 hh1 hm0 hm1,
    computeTrigger_monthly_default hp hh0 hh1 hm0 hm1⟩

/-- Claim C10, witness: the selector `"1,x,5"` has the unparseable
piece `"x"`; the whole selector collapses to the defaults. -/
theorem C10_malformed_selector_defaults_witness :
    parse_csv_ints (some "1,x,5") = [] ∧
    computeTrigger "weekly" "UTC" 9 30 (some "1,x,5") none =
      .ok ⟨some ["mon"], none, 9, 30, "UTC"⟩ ∧
    computeTrigger "monthly" "UTC" 9 30 none (some "1,x,5") =
      .ok ⟨none, some [1], 9, 30, "UTC"⟩ :=
  C10_malformed_selector_defaults ⟨"x", by decide, by decide, by rfl⟩
    (by decide) (by decide) (by decide) (by decide)
